import Mathlib

/-!
Verification of the document-ai-platform frontend synchronization core.

The definitions below are a shallow embedding of the TypeScript source:
  * `src/components/FileUpload.tsx`  — the Upload Submitter,
  * `src/components/DocumentList.tsx` — the Document Synchronizer,
  * `src/App.tsx` — the wiring between the two.
Pure functions of the source become Lean functions; React component state
becomes an explicit state record, and each event handler or completed
asynchronous call becomes a state-transition function.  Network responses
are passed in explicitly as values of `FetchOutcome`.
-/

namespace DocAI

/-- The `Document` record of `DocumentList.tsx` (interface `Document`):
nullable fields become `Option`. -/
structure Document where
  id : Nat
  filename : String
  status : String
  documentType : Option String
  extractedText : Option String
  createdAt : String
  processedAt : Option String
deriving Repr, DecidableEq

/-- A browser `File` object as consumed by `FileUpload.tsx`: only the
fields the component reads (`name`, `type`, `size`). -/
structure JSFile where
  name : String
  type : String
  size : Nat
deriving Repr, DecidableEq

/-- `SUPPORTED_TYPES` from `FileUpload.tsx`. -/
def SUPPORTED_TYPES : List String :=
  ["image/jpeg", "image/png", "image/jpg", "application/pdf"]

/-- `MAX_FILE_SIZE` from `FileUpload.tsx` (`20 * 1024 * 1024`). -/
def MAX_FILE_SIZE : Nat := 20 * 1024 * 1024

/-- The message `validateFile` returns for an unsupported MIME type;
this is the `UnsupportedType` outcome of the spec. -/
def unsupportedTypeMsg : String :=
  "Unsupported file type. Please upload JPG, PNG, or PDF."

/-- The message `validateFile` returns for an oversized file;
this is the `FileTooLarge` outcome of the spec. -/
def fileTooLargeMsg : String :=
  "File is too large. Maximum size is 20MB."

/-- `validateFile` from `FileUpload.tsx`: type membership is checked
first, then `file.size > MAX_FILE_SIZE`; `none` means the file is valid. -/
def validateFile (file : JSFile) : Option String :=
  if ¬ SUPPORTED_TYPES.contains file.type then
    some unsupportedTypeMsg
  else if file.size > MAX_FILE_SIZE then
    some fileTooLargeMsg
  else
    none

/-- What `uploadFile` in `FileUpload.tsx` does before/at the network
boundary: a validation failure invokes `onUploadError` synchronously and
returns without touching the network; otherwise exactly one `POST
/documents` request is issued carrying the file. -/
inductive UploadAction where
  /-- `onUploadError(validationError)` is called; no fetch is issued. -/
  | validationFailure (msg : String)
  /-- `fetch(API_BASE_URL/documents, {method: POST, body: formData})`
  is issued with the file as the multipart `file` field. -/
  | networkRequest (file : JSFile)
deriving Repr, DecidableEq

/-- The synchronous prefix of `uploadFile` from `FileUpload.tsx`:
validate, and either fail without a request or issue the request. -/
def uploadFile (file : JSFile) : UploadAction :=
  match validateFile file with
  | some e => .validationFailure e
  | none => .networkRequest file

/-- The React state of `DocumentList.tsx`: `documents`, `loading`,
`error` and `selectedDocument` (`useState` hooks, lines 23-28). -/
structure SyncState where
  documents : List Document
  loading : Bool
  error : String
  selectedDocument : Option Document
deriving Repr, DecidableEq

/-- The initial hook values of `DocumentList.tsx`: empty collection,
`loading = true`, empty error, no selection. -/
def initialSyncState : SyncState :=
  { documents := [], loading := true, error := "", selectedDocument := none }

/-- The outcome of one `fetch(API_BASE_URL/documents)` call as observed
by `fetchDocuments`: a 2xx response with parsed body `data`, or a
failure (`!response.ok` makes the code throw
`Error("Failed to fetch documents")`; a rejected fetch carries the
network error's message), caught with message `msg`. -/
inductive FetchOutcome where
  | success (data : List Document)
  | failure (msg : String)
deriving Repr, DecidableEq

/-- `fetchDocuments` from `DocumentList.tsx`, as the net state change of
one completed call: the `try` branch runs `setDocuments(data)` then
`setError("")`; the `catch` branch runs `setError(msg)` and leaves
`documents` untouched; the `finally` branch runs `setLoading(false)`
in both cases (the transient `setLoading(true)` at entry is overwritten
by the time the call completes). -/
def fetchDocuments (s : SyncState) (r : FetchOutcome) : SyncState :=
  match r with
  | .success data => { s with documents := data, error := "", loading := false }
  | .failure msg => { s with error := msg, loading := false }

/-- `getStatusClass` from `DocumentList.tsx`: the `switch` compares the
status string case by case; `"PENDING"` and `default` share the final
branch. -/
def getStatusClass (status : String) : String :=
  if status = "COMPLETED" then "status-completed"
  else if status = "PROCESSING" then "status-processing"
  else if status = "FAILED" then "status-failed"
  else "status-pending"

/-- `getStatusIcon` from `DocumentList.tsx`: same `switch` shape, with
`"PENDING"` and `default` sharing the final branch. -/
def getStatusIcon (status : String) : String :=
  if status = "COMPLETED" then "✓"
  else if status = "PROCESSING" then "⏳"
  else if status = "FAILED" then "✗"
  else "⏱"

/-- `handleRowClick` from `DocumentList.tsx`: stores the clicked row's
`Document` record in `selectedDocument` (a pure state update — no fetch
is issued). The optional `onDocumentClick` callback does not change this
component's state. -/
def handleRowClick (s : SyncState) (document : Document) : SyncState :=
  { s with selectedDocument := some document }

/-- `closeDetail` from `DocumentList.tsx`: clears the selection. -/
def closeDetail (s : SyncState) : SyncState :=
  { s with selectedDocument := none }

/-- JavaScript truthiness of the `refreshTrigger` prop
(`number | undefined`): `undefined` and `0` are falsy, every other
number is truthy.  This is the guard `if (refreshTrigger)` in the
trigger effect of `DocumentList.tsx`. -/
def truthy : Option Nat → Bool
  | none => false
  | some n => n ≠ 0

/-- How many fetches the body of the `refreshTrigger` effect issues
when it runs with prop value `v`: one when `if (refreshTrigger)` passes,
none otherwise. -/
def triggerEffectFetch (v : Option Nat) : Nat :=
  if truthy v then 1 else 0

/-- React semantics of `useEffect(..., [refreshTrigger])` over a trace
of renders after the first: the effect re-runs exactly when the dep
value differs from the previous render's value, and each run issues
`triggerEffectFetch` fetches. `prev` is the dep value of the previous
render. -/
def triggerRefreshesFrom (prev : Option Nat) : List (Option Nat) → Nat
  | [] => 0
  | v :: rest =>
      (if v ≠ prev then triggerEffectFetch v else 0) + triggerRefreshesFrom v rest

/-- Fetches issued by the `refreshTrigger` effect over a whole render
trace: on mount the effect always runs once (with the initial prop
value), then re-runs on dep change. -/
def triggerRefreshes : List (Option Nat) → Nat
  | [] => 0
  | v :: rest => triggerEffectFetch v + triggerRefreshesFrom v rest

/-- Lifecycle flags of one `DocumentList` instance: whether the
component is mounted and whether the 5-second `setInterval` registered
by the interval effect is still active. -/
structure Lifecycle where
  mounted : Bool
  intervalActive : Bool
deriving Repr, DecidableEq

/-- Mounting runs the interval effect, which registers the 5-second
`setInterval` poller. -/
def mount : Lifecycle := { mounted := true, intervalActive := true }

/-- Unmounting runs the effect cleanup `() => clearInterval(interval)`
from `DocumentList.tsx`, cancelling the poller. -/
def unmount (_l : Lifecycle) : Lifecycle :=
  { mounted := false, intervalActive := false }

/-- A fetch response arriving at a component with lifecycle `l`: React
state setters (`setDocuments`, `setError`, `setLoading`) are no-ops on
an unmounted component, so a late response leaves the state untouched;
on a mounted component it applies `fetchDocuments`. Totality of this
function is the no-throw part of the teardown contract. -/
def applyFetchOutcome (l : Lifecycle) (s : SyncState) (r : FetchOutcome) : SyncState :=
  if l.mounted then fetchDocuments s r else s

/-- The React state of `App.tsx`: the `documents` and `error` hooks. -/
structure AppState where
  documents : List Document
  error : String
deriving Repr, DecidableEq

/-- `handleUploadSuccess` from `App.tsx`: prepends the new document to
App's own `documents` array and clears App's error.  It does not touch
any state of `DocumentList`. -/
def handleUploadSuccess (s : AppState) (document : Document) : AppState :=
  { s with documents := document :: s.documents, error := "" }

/-- `handleUploadError` from `App.tsx`. -/
def handleUploadError (s : AppState) (errorMsg : String) : AppState :=
  { s with error := errorMsg }

/-- The `refreshTrigger` prop `App.tsx` passes to `DocumentList`: the
component is rendered as `<DocumentList />` with no props, so the prop
is `undefined` on every render, for every `AppState`. -/
def appRefreshTrigger (_s : AppState) : Option Nat := none

/-! ### Concrete records used by witnesses and counterexamples -/

/-- A freshly uploaded, still unprocessed document. -/
def docPending : Document :=
  ⟨1, "a.pdf", "PENDING", none, none, "2026-01-01T10:00:00Z", none⟩

/-- The same logical document (same `id`) after backend processing. -/
def docCompleted : Document :=
  ⟨1, "a.pdf", "COMPLETED", some "invoice", some "Total: 100",
    "2026-01-01T10:00:00Z", some "2026-01-01T10:00:30Z"⟩

/-- A 20 MiB + 1 byte PDF: supported type, oversized. -/
def bigPdf : JSFile := ⟨"big.pdf", "application/pdf", 20 * 1024 * 1024 + 1⟩

/-- An oversized plain-text file: unsupported type and oversized. -/
def bigText : JSFile := ⟨"notes.txt", "text/plain", 30 * 1024 * 1024⟩

/-- Same MIME type and size as `bigText`, different name. -/
def bigText2 : JSFile := ⟨"other.txt", "text/plain", 30 * 1024 * 1024⟩

/-- A small file with the non-standard MIME type `image/jpg`. -/
def jpgFile : JSFile := ⟨"photo.jpg", "image/jpg", 1024⟩

/-! ### Shared helper lemmas -/

/-- The `refreshTrigger` effect does not re-run while the dep value
stays the same: a run of identical prop values issues no fetch. -/
theorem triggerRefreshesFrom_self_replicate (v : Option Nat) (n : Nat) :
    triggerRefreshesFrom v (List.replicate n v) = 0 := by
  induction n with
  | zero => rfl
  | succ n ih => simp [List.replicate_succ, triggerRefreshesFrom, ih]

/-- Along any trace of App renders, the `refreshTrigger` prop value is
constantly `none`, so the trigger effect never re-runs after the
previous value was already `none`. -/
theorem triggerRefreshesFrom_app_trace (states : List AppState) :
    triggerRefreshesFrom none (states.map appRefreshTrigger) = 0 := by
  induction states with
  | nil => rfl
  | cons a rest ih => simp [appRefreshTrigger, triggerRefreshesFrom, ih]

/-! ### Claim theorems -/

/-- C1: in the code as wired, a success outcome of the Upload Submitter
does NOT signal the Document Synchronizer: `App.tsx` renders
`<DocumentList />` with no `refreshTrigger` prop, and
`handleUploadSuccess` only prepends to App's own (unused) `documents`
array, so after any successful upload the prop is still `undefined` and
the trigger effect issues zero refreshes over every subsequent render
trace.  This theorem evaluates the code at the failing situation the
claim describes. -/
theorem app_upload_success_triggers_no_refresh
    (s : AppState) (d : Document) (states : List AppState) :
    appRefreshTrigger (handleUploadSuccess s d) = none ∧
    triggerRefreshes ((handleUploadSuccess s d :: states).map appRefreshTrigger) = 0 := by
  refine ⟨rfl, ?_⟩
  simp only [List.map_cons, triggerRefreshes, appRefreshTrigger,
    triggerEffectFetch, truthy]
  simpa using triggerRefreshesFrom_app_trace states

/-- C2 counterexample: a file of size exactly 20 MiB with a supported
MIME type passes validation and IS submitted to the network, so the
claim "every file of size ≥ 20 MiB fails with FileTooLarge and issues
no network request" is false at this input (`validateFile` uses a
strict `>` comparison). -/
theorem twentyMiBAccepted :
    validateFile ⟨"scan.png", "image/png", 20 * 1024 * 1024⟩ = none ∧
    uploadFile ⟨"scan.png", "image/png", 20 * 1024 * 1024⟩ =
      .networkRequest ⟨"scan.png", "image/png", 20 * 1024 * 1024⟩ := by
  constructor <;> rfl

/-- C2 (amended): for every file with a supported MIME type whose size
is strictly greater than 20 MiB, `submit` fails with the FileTooLarge
message and issues no network request; a file of exactly 20 MiB is
accepted. -/
theorem oversize_supported_file_rejected (file : JSFile)
    (hty : file.type ∈ SUPPORTED_TYPES) (hsz : MAX_FILE_SIZE < file.size) :
    validateFile file = some fileTooLargeMsg ∧
    uploadFile file = .validationFailure fileTooLargeMsg := by
  have hv : validateFile file = some fileTooLargeMsg := by
    simp [validateFile, hty, hsz]
  exact ⟨hv, by simp [uploadFile, hv]⟩

/-- Witness for C2 (amended), at a 20 MiB + 1 byte PDF. -/
theorem oversize_supported_file_rejected_witness :
    validateFile bigPdf = some fileTooLargeMsg ∧
    uploadFile bigPdf = .validationFailure fileTooLargeMsg :=
  oversize_supported_file_rejected bigPdf (by decide) (by decide)

/-- C3: a failed fetch sets the error state (to the caught message) and
leaves the held collection exactly as it was; a later successful
refresh clears the error and replaces the collection with the new
response. -/
theorem failed_fetch_preserves_collection (s : SyncState) (msg : String)
    (data : List Document) (hmsg : msg ≠ "") :
    (fetchDocuments s (.failure msg)).error = msg ∧
    (fetchDocuments s (.failure msg)).error ≠ "" ∧
    (fetchDocuments s (.failure msg)).documents = s.documents ∧
    (fetchDocuments (fetchDocuments s (.failure msg)) (.success data)).error = "" ∧
    (fetchDocuments (fetchDocuments s (.failure msg)) (.success data)).documents = data := by
  refine ⟨rfl, ?_, rfl, rfl, rfl⟩
  simpa [fetchDocuments] using hmsg

/-- Witness for C3, at the initial state, the message the code throws
for a non-2xx response, and a one-document retry response. -/
theorem failed_fetch_preserves_collection_witness :
    (fetchDocuments initialSyncState (.failure "Failed to fetch documents")).error =
      "Failed to fetch documents" ∧
    (fetchDocuments initialSyncState (.failure "Failed to fetch documents")).error ≠ "" ∧
    (fetchDocuments initialSyncState (.failure "Failed to fetch documents")).documents =
      initialSyncState.documents ∧
    (fetchDocuments (fetchDocuments initialSyncState (.failure "Failed to fetch documents"))
      (.success [docCompleted])).error = "" ∧
    (fetchDocuments (fetchDocuments initialSyncState (.failure "Failed to fetch documents"))
      (.success [docCompleted])).documents = [docCompleted] :=
  failed_fetch_preserves_collection initialSyncState "Failed to fetch documents"
    [docCompleted] (by decide)

/-- C4: a successful refresh replaces the collection wholesale with the
response — the collection afterwards is exactly the response, a
document is in it exactly when it is in the response (so anything
absent from the response is gone), and repeating the same response is
idempotent on the whole state. -/
theorem refresh_replaces_wholesale (s : SyncState) (data : List Document) :
    (fetchDocuments s (.success data)).documents = data ∧
    (∀ d : Document, d ∈ (fetchDocuments s (.success data)).documents ↔ d ∈ data) ∧
    fetchDocuments (fetchDocuments s (.success data)) (.success data) =
      fetchDocuments s (.success data) := by
  exact ⟨rfl, fun d => Iff.rfl, rfl⟩

/-- C5: validation reads only the MIME type and byte size (two files
agreeing on both validate identically), the type check comes first, and
a file whose type is outside `SUPPORTED_TYPES` fails with the
UnsupportedType message and issues no network request — even when it is
also oversized, since the size check is never reached. -/
theorem unsupported_type_fails_before_network (file g : JSFile)
    (hty : file.type ∉ SUPPORTED_TYPES)
    (hgt : g.type = file.type) (hgs : g.size = file.size) :
    validateFile file = some unsupportedTypeMsg ∧
    uploadFile file = .validationFailure unsupportedTypeMsg ∧
    validateFile g = validateFile file ∧
    uploadFile g = .validationFailure unsupportedTypeMsg := by
  have hv : validateFile file = some unsupportedTypeMsg := by
    simp [validateFile, hty]
  have hg : validateFile g = validateFile file := by
    simp [validateFile, hgt, hgs]
  exact ⟨hv, by simp [uploadFile, hv], hg,
    by simp [uploadFile, hg, hv]⟩

/-- Witness for C5: an oversized `text/plain` file still fails with the
UnsupportedType message (type error takes precedence), and a same-type
same-size file validates identically. -/
theorem unsupported_type_fails_before_network_witness :
    validateFile bigText = some unsupportedTypeMsg ∧
    uploadFile bigText = .validationFailure unsupportedTypeMsg ∧
    validateFile bigText2 = validateFile bigText ∧
    uploadFile bigText2 = .validationFailure unsupportedTypeMsg :=
  unsupported_type_fails_before_network bigText bigText2
    (by decide) (by decide) (by decide)

/-- C6 counterexample: a change of the `refreshTrigger` signal from
`1` to the distinct value `0` causes zero refreshes, not one — the
effect body's guard `if (refreshTrigger)` is falsy at `0` — so the
claim "every change to a new distinct value performs exactly one
refresh, including the initial/zero value" is false at this input. -/
theorem zero_signal_change_refreshes_nothing :
    triggerRefreshesFrom (some 1) [some 0] = 0 ∧ some (0 : Nat) ≠ some 1 := by
  constructor <;> decide

/-- C6 (amended): a render where the signal value changed performs one
refresh exactly when the new value is truthy (non-zero, defined) — a
change to `0`/`undefined` performs none — and any run of renders
repeating the identical value performs no refresh at all. -/
theorem trigger_refresh_per_distinct_truthy (prev v : Option Nat) (n : Nat) :
    triggerRefreshesFrom prev [v] = (if v ≠ prev ∧ truthy v then 1 else 0) ∧
    triggerRefreshesFrom v (List.replicate n v) = 0 := by
  refine ⟨?_, triggerRefreshesFrom_self_replicate v n⟩
  by_cases hne : v = prev
  · simp [triggerRefreshesFrom, hne]
  · by_cases ht : truthy v
    · simp [triggerRefreshesFrom, triggerEffectFetch, hne, ht]
    · simp [triggerRefreshesFrom, triggerEffectFetch, hne, ht]

/-- C7: every status string outside {COMPLETED, PROCESSING, FAILED}
lands in the shared `PENDING`/default branch of both the display-class
and glyph mappings, so both return exactly what they return for
`"PENDING"` (the mappings are total Lean functions by construction). -/
theorem unknown_status_maps_like_pending (s : String)
    (h1 : s ≠ "COMPLETED") (h2 : s ≠ "PROCESSING") (h3 : s ≠ "FAILED") :
    getStatusClass s = getStatusClass "PENDING" ∧
    getStatusIcon s = getStatusIcon "PENDING" := by
  have hc : getStatusClass "PENDING" = "status-pending" := rfl
  have hi : getStatusIcon "PENDING" = "⏱" := rfl
  refine ⟨?_, ?_⟩
  · rw [hc]; simp [getStatusClass, h1, h2, h3]
  · rw [hi]; simp [getStatusIcon, h1, h2, h3]

/-- Witness for C7, at the future status value `"ARCHIVED"`. -/
theorem unknown_status_maps_like_pending_witness :
    getStatusClass "ARCHIVED" = getStatusClass "PENDING" ∧
    getStatusIcon "ARCHIVED" = getStatusIcon "PENDING" :=
  unknown_status_maps_like_pending "ARCHIVED" (by decide) (by decide) (by decide)

/-- C8 counterexample: open the detail view on the PENDING record of
document 1, then let a refresh arrive whose response carries the
COMPLETED record of the same id — the collection is replaced, but the
displayed detail record is still the stale PENDING snapshot
(`fetchDocuments` never touches `selectedDocument`), so the claim "the
displayed detail record equals the record the most recent completed
refresh produced for that id" is false at this input. -/
theorem detail_keeps_stale_snapshot :
    (fetchDocuments
      (handleRowClick (fetchDocuments initialSyncState (.success [docPending]))
        docPending)
      (.success [docCompleted])).selectedDocument = some docPending ∧
    (fetchDocuments
      (handleRowClick (fetchDocuments initialSyncState (.success [docPending]))
        docPending)
      (.success [docCompleted])).documents = [docCompleted] ∧
    docPending ≠ docCompleted ∧ docPending.id = docCompleted.id := by
  refine ⟨rfl, rfl, by decide, rfl⟩

/-- C8 (amended): requesting detail is a pure state update with no
network call — clicking a row stores that row's record and leaves the
collection untouched — and the displayed detail record is the snapshot
taken at click time: any refresh completing while the detail view is
open replaces the collection but leaves the displayed record as the
snapshot. -/
theorem detail_is_click_snapshot (s : SyncState) (d : Document) (r : FetchOutcome) :
    (handleRowClick s d).selectedDocument = some d ∧
    (handleRowClick s d).documents = s.documents ∧
    (fetchDocuments (handleRowClick s d) r).selectedDocument = some d := by
  refine ⟨rfl, rfl, ?_⟩
  cases r <;> rfl

/-- C9: tearing the synchronizer down runs the interval effect's
cleanup, cancelling the 5-second poller, and a late response from a
fetch already in flight at teardown changes no state at all (React
state setters are no-ops on an unmounted component); `applyFetchOutcome`
is a total function, so the late response also cannot throw. -/
theorem teardown_cancels_timer_and_discards_late_response
    (l : Lifecycle) (s : SyncState) (r : FetchOutcome) :
    (unmount l).intervalActive = false ∧
    applyFetchOutcome (unmount l) s r = s :=
  ⟨rfl, rfl⟩

/-- C10: for every file within the size limit, `submit` issues the
network request exactly when its MIME type is one of the four strings
`image/jpeg`, `image/png`, `image/jpg`, `application/pdf` — in
particular the non-standard `image/jpg` (absent from the spec's
three-type set) passes validation and is submitted. -/
theorem accepted_types_exactly_four (file : JSFile)
    (hsz : file.size ≤ MAX_FILE_SIZE) :
    (uploadFile file = .networkRequest file ↔
      file.type ∈ (["image/jpeg", "image/png", "image/jpg", "application/pdf"] : List String)) ∧
    validateFile ⟨file.name, "image/jpg", file.size⟩ = none ∧
    uploadFile ⟨file.name, "image/jpg", file.size⟩ =
      .networkRequest ⟨file.name, "image/jpg", file.size⟩ := by
  have hns : ¬ MAX_FILE_SIZE < file.size := not_lt.mpr hsz
  have hjpg : validateFile ⟨file.name, "image/jpg", file.size⟩ = none := by
    simp [validateFile, SUPPORTED_TYPES, hns]
  refine ⟨?_, hjpg, by simp [uploadFile, hjpg]⟩
  constructor
  · intro h
    by_cases hm : file.type ∈ SUPPORTED_TYPES
    · simpa [SUPPORTED_TYPES] using hm
    · simp [uploadFile, validateFile, hm] at h
  · intro hm
    have hm2 : file.type ∈ SUPPORTED_TYPES := by simpa [SUPPORTED_TYPES] using hm
    have hv : validateFile file = none := by simp [validateFile, hm2, hns]
    simp [uploadFile, hv]

/-- Witness for C10, at a small `image/jpg` file. -/
theorem accepted_types_exactly_four_witness :
    (uploadFile jpgFile = .networkRequest jpgFile ↔
      jpgFile.type ∈ (["image/jpeg", "image/png", "image/jpg", "application/pdf"] : List String)) ∧
    validateFile ⟨jpgFile.name, "image/jpg", jpgFile.size⟩ = none ∧
    uploadFile ⟨jpgFile.name, "image/jpg", jpgFile.size⟩ =
      .networkRequest ⟨jpgFile.name, "image/jpg", jpgFile.size⟩ :=
  accepted_types_exactly_four jpgFile (by decide)

end DocAI
